import Mathlib

/-!
Verification development for the research-orchestration core of
`app.py` (topic research pipeline: LM Studio completion client, Tavily
multi-query search aggregator, two-stage plan/search workflow, facade).

The Python source is shallowly embedded: external HTTP interactions are
modelled by an environment that supplies, for each completion attempt and
for each search query, the outcome the network would deliver (an HTTP
response with status, an optionally JSON-decodable body and raw text, or a
raised `requests` exception).  Python exceptions are explicit
`Except PyExc` values; `try/except` blocks become matches on those values.
JSON bodies are an inductive `Json` type and the dynamic operations the
source performs on decoded bodies (`d[k]`, `d.get(k, default)`,
`x.lower()`, `needle in x`, iteration, slicing) are embedded with Python's
runtime semantics, including the exceptions they raise on unexpected
shapes.
-/

/-- Roles of chat messages (`HumanMessage` / `AIMessage` from the source). -/
inductive Role where
  | human
  | assistant
deriving DecidableEq, Repr

/-- A chat message: role plus content, as kept in `ResearchState.messages`. -/
structure Message where
  role : Role
  content : String
deriving DecidableEq, Repr

/-- A decoded JSON value, as returned by `response.json()`. -/
inductive Json where
  | null
  | bool (b : Bool)
  | num (n : Int)
  | str (s : String)
  | arr (elems : List Json)
  | obj (fields : List (String × Json))

-- Structural equality on JSON values (Python == on decoded JSON).
mutual
def jsonBeq : Json → Json → Bool
  | .null, .null => true
  | .bool a, .bool b => a == b
  | .num a, .num b => a == b
  | .str a, .str b => a == b
  | .arr a, .arr b => jsonBeqList a b
  | .obj a, .obj b => jsonBeqFields a b
  | _, _ => false
def jsonBeqList : List Json → List Json → Bool
  | [], [] => true
  | x :: xs, y :: ys => jsonBeq x y && jsonBeqList xs ys
  | _, _ => false
def jsonBeqFields : List (String × Json) → List (String × Json) → Bool
  | [], [] => true
  | (k, v) :: xs, (l, w) :: ys => k == l && jsonBeq v w && jsonBeqFields xs ys
  | _, _ => false
end

instance : BEq Json := ⟨jsonBeq⟩

/-- The Python exceptions the embedded code can raise, with the text
`str(e)` would produce (for `KeyError` the key; `str(KeyError(k))` is the
repr of the key). -/
inductive PyExc where
  | keyError (key : String)
  | indexError (msg : String)
  | typeError (msg : String)
  | attributeError (msg : String)
deriving DecidableEq, Repr

/-- Python `str(e)` for an exception `e` caught by `except ... as e`. -/
def pyExcStr : PyExc → String
  | .keyError k => "'" ++ k ++ "'"
  | .indexError m => m
  | .typeError m => m
  | .attributeError m => m

/-- Python's type name of a decoded JSON value, used in exception texts. -/
def pyTypeName : Json → String
  | .null => "NoneType"
  | .bool _ => "bool"
  | .num _ => "int"
  | .str _ => "str"
  | .arr _ => "list"
  | .obj _ => "dict"

/-- First binding of `k` in an association list (Python dict lookup). -/
def pyLookup : List (String × Json) → String → Option Json
  | [], _ => none
  | (l, v) :: rest, k => if l = k then some v else pyLookup rest k

/-- Python subscript `x[k]` with a string key `k`: dict lookup raising
`KeyError` on a missing key; `TypeError` on non-dict values. -/
def pyGetItemStr (j : Json) (k : String) : Except PyExc Json :=
  match j with
  | .obj fields =>
    match pyLookup fields k with
    | some v => .ok v
    | none => .error (.keyError k)
  | .arr _ => .error (.typeError "list indices must be integers or slices, not str")
  | .str _ => .error (.typeError "string indices must be integers")
  | j => .error (.typeError ("'" ++ pyTypeName j ++ "' object is not subscriptable"))

/-- Python subscript `x[i]` with an integer index: list indexing raising
`IndexError` out of range; a string yields its `i`-th character; a dict
raises `KeyError` (exception text approximated); other values `TypeError`. -/
def pyGetItemNat (j : Json) (i : Nat) : Except PyExc Json :=
  match j with
  | .arr xs =>
    match xs.get? i with
    | some v => .ok v
    | none => .error (.indexError "list index out of range")
  | .str s =>
    match s.data.get? i with
    | some c => .ok (.str (String.singleton c))
    | none => .error (.indexError "string index out of range")
  | .obj _ => .error (.keyError (toString i))
  | j => .error (.typeError ("'" ++ pyTypeName j ++ "' object is not subscriptable"))

/-- Python `x.get(k, default)`: only dicts have `.get`; any other value
raises `AttributeError`. -/
def pyGet (j : Json) (k : String) (default : Json) : Except PyExc Json :=
  match j with
  | .obj fields => .ok ((pyLookup fields k).getD default)
  | j => .error (.attributeError ("'" ++ pyTypeName j ++ "' object has no attribute 'get'"))

/-- Python truthiness of a decoded JSON value (`if sources:`). -/
def pyTruthy : Json → Bool
  | .null => false
  | .bool b => b
  | .num n => n != 0
  | .str s => !(s.isEmpty)
  | .arr xs => !(xs.isEmpty)
  | .obj fs => !(fs.isEmpty)

/-- Python iteration over a decoded JSON value (`for source in sources`):
lists yield elements, strings their characters, dicts their keys; other
values raise `TypeError`. -/
def pyIterate (j : Json) : Except PyExc (List Json) :=
  match j with
  | .arr xs => .ok xs
  | .str s => .ok (s.data.map (fun c => Json.str (String.singleton c)))
  | .obj fs => .ok (fs.map (fun p => Json.str p.1))
  | j => .error (.typeError ("'" ++ pyTypeName j ++ "' object is not iterable"))

/-- Python slice `x[:n]`: a prefix of a string or list; other values raise
`TypeError`. -/
def pySliceTo (j : Json) (n : Nat) : Except PyExc Json :=
  match j with
  | .str s => .ok (.str (String.mk (s.data.take n)))
  | .arr xs => .ok (.arr (xs.take n))
  | j => .error (.typeError ("'" ++ pyTypeName j ++ "' object is not subscriptable"))

-- Python repr of a decoded JSON value (enough for str of containers).
mutual
def pyRepr : Json → String
  | .null => "None"
  | .bool true => "True"
  | .bool false => "False"
  | .num n => toString n
  | .str s => "'" ++ s ++ "'"
  | .arr xs => "[" ++ String.intercalate ", " (pyReprList xs) ++ "]"
  | .obj fs => "\x7b" ++ String.intercalate ", " (pyReprFields fs) ++ "\x7d"
def pyReprList : List Json → List String
  | [] => []
  | x :: xs => pyRepr x :: pyReprList xs
def pyReprFields : List (String × Json) → List String
  | [] => []
  | (k, v) :: xs => ("'" ++ k ++ "': " ++ pyRepr v) :: pyReprFields xs
end

/-- Python `str()` of a decoded JSON value, as interpolated by f-strings. -/
def pyStr : Json → String
  | .str s => s
  | j => pyRepr j

/-- Python substring test `needle in hay` on two strings. -/
def strIn (needle hay : String) : Bool := decide (needle.data <:+: hay.data)

/-- Python `needle in x` for a string `needle` and a decoded JSON value
`x`: substring test on strings, membership on lists, key membership on
dicts; other values raise `TypeError`. -/
def pyIn (needle : String) (hay : Json) : Except PyExc Bool :=
  match hay with
  | .str s => .ok (strIn needle s)
  | .arr xs => .ok (xs.contains (Json.str needle))
  | .obj fs => .ok (fs.any (fun p => p.1 == needle))
  | j => .error (.typeError ("argument of type '" ++ pyTypeName j ++ "' is not iterable"))

/-- Python `x.lower()`: ASCII lowering of a string (the phrases the source
compares against are ASCII); any other value raises `AttributeError`. -/
def pyLower (j : Json) : Except PyExc Json :=
  match j with
  | .str s => .ok (.str (String.mk (s.data.map Char.toLower)))
  | j => .error (.attributeError ("'" ++ pyTypeName j ++ "' object has no attribute 'lower'"))

/-- Python `sep.join(parts)`. -/
def pyJoin (sep : String) : List String → String
  | [] => ""
  | [x] => x
  | x :: xs => x ++ sep ++ pyJoin sep xs

/-! ## Resilient Completion Client (`LMStudioLLM`, app.py lines 38-102) -/

/-- Configuration of `LMStudioLLM` (class fields, app.py lines 41-46).
`temperature` and `max_tokens` are omitted: they only enter the request
payload sent to the mocked endpoint and never influence control flow. -/
structure LLMConfig where
  base_url : String := "http://localhost:1234/v1"
  model : String := "microsoft/Phi-4-mini-reasoning"
  timeout : Nat := 180
  max_retries : Nat := 3
deriving Repr

/-- What one attempt's `session.post` to the completion endpoint delivers:
an HTTP response (status code, the decoded JSON body if `response.json()`
succeeds or `none` if it would raise `JSONDecodeError`, and the raw
`response.text`), or one of the `requests` exceptions the source catches. -/
inductive LLMAttemptOutcome where
  | response (status : Nat) (body : Option Json) (text : String)
  | timeout
  | connectionError
  | requestException (msg : String)

/-- Attempt outcomes, indexed by 0-based attempt number: the mocked
completion endpoint. -/
def LLMEnv := Nat → LLMAttemptOutcome

/-- What the embedded `_call` produces: its return value or the uncaught
exception it raises, together with the `time.sleep` durations performed (in
order) and the number of attempts issued. -/
structure CallResult where
  result : Except PyExc Json
  sleeps : List Nat
  attempts : Nat

/-- Python `str(e)` of the `JSONDecodeError` raised by `response.json()`
on an undecodable body (a `RequestException` subclass in `requests`). -/
def jsonDecodeErrMsg : String := "Expecting value: line 1 column 1 (char 0)"

/-- The extraction `result["choices"][0]["message"]["content"]`
(app.py line 83), with Python's exceptions on unexpected shapes. -/
def extractContent (result : Json) : Except PyExc Json :=
  match pyGetItemStr result "choices" with
  | .error e => .error e
  | .ok choices =>
    match pyGetItemNat choices 0 with
    | .error e => .error e
    | .ok first =>
      match pyGetItemStr first "message" with
      | .error e => .error e
      | .ok message => pyGetItemStr message "content"

/-- The retry loop of `LMStudioLLM._call` (app.py lines 70-102), one
constructor case per attempt outcome.  The first argument counts the
remaining loop iterations (`max_retries - attempt`); `attempt` is the
0-based loop index.  On a 200 response the extracted content is returned,
and an extraction failure is an uncaught exception (nothing catches
`KeyError`/`IndexError`/`TypeError` there).  On a non-200 response the
source's `continue` (line 87) skips the backoff sleep at lines 99-100; the
exception handlers instead fall through to it.  Falling out of the loop
(only possible when `max_retries = 0`) returns the final error string of
line 102. -/
def callAux (cfg : LLMConfig) (env : LLMEnv) : Nat → Nat → CallResult
  | 0, _ => { result := .ok (.str "Error: All retry attempts failed"), sleeps := [], attempts := 0 }
  | remaining + 1, attempt =>
    match env attempt with
    | .response status body text =>
      if status == 200 then
        match body with
        | some parsed =>
          match extractContent parsed with
          | .ok content => { result := .ok content, sleeps := [], attempts := 1 }
          | .error e => { result := .error e, sleeps := [], attempts := 1 }
        | none =>
          -- response.json() raised JSONDecodeError, caught by the
          -- `except requests.exceptions.RequestException` handler.
          if attempt == cfg.max_retries - 1 then
            { result := .ok (.str ("Error connecting to LM Studio: " ++ jsonDecodeErrMsg)),
              sleeps := [], attempts := 1 }
          else
            let rest := callAux cfg env remaining (attempt + 1)
            { result := rest.result, sleeps := 2 ^ attempt :: rest.sleeps,
              attempts := rest.attempts + 1 }
      else
        if attempt == cfg.max_retries - 1 then
          { result := .ok (.str ("Error: " ++ toString status ++ " - " ++ text)),
            sleeps := [], attempts := 1 }
        else
          -- `continue`: retry immediately, skipping the sleep.
          let rest := callAux cfg env remaining (attempt + 1)
          { result := rest.result, sleeps := rest.sleeps, attempts := rest.attempts + 1 }
    | .timeout =>
      if attempt == cfg.max_retries - 1 then
        { result := .ok (.str ("Error: Request timed out after " ++ toString cfg.timeout ++
            " seconds. Please check if LM Studio is running and responsive.")),
          sleeps := [], attempts := 1 }
      else
        let rest := callAux cfg env remaining (attempt + 1)
        { result := rest.result, sleeps := 2 ^ attempt :: rest.sleeps,
          attempts := rest.attempts + 1 }
    | .connectionError =>
      if attempt == cfg.max_retries - 1 then
        { result := .ok (.str ("Error: Cannot connect to LM Studio at " ++ cfg.base_url ++
            ". Please ensure LM Studio is running.")),
          sleeps := [], attempts := 1 }
      else
        let rest := callAux cfg env remaining (attempt + 1)
        { result := rest.result, sleeps := 2 ^ attempt :: rest.sleeps,
          attempts := rest.attempts + 1 }
    | .requestException msg =>
      if attempt == cfg.max_retries - 1 then
        { result := .ok (.str ("Error connecting to LM Studio: " ++ msg)),
          sleeps := [], attempts := 1 }
      else
        let rest := callAux cfg env remaining (attempt + 1)
        { result := rest.result, sleeps := 2 ^ attempt :: rest.sleeps,
          attempts := rest.attempts + 1 }

/-- `LMStudioLLM._call(prompt)`: run the retry loop from attempt 0.  The
prompt only enters the request payload; the mocked endpoint `env` supplies
each attempt's outcome. -/
def LMStudioLLM_call (cfg : LLMConfig) (_prompt : String) (env : LLMEnv) : CallResult :=
  callAux cfg env cfg.max_retries 0

/-! ## Tavily search tool (`TavilySearchTool`, app.py lines 104-162) -/

/-- What one `requests.post` to the Tavily search endpoint delivers: an
HTTP response (status, the decoded JSON body or `none` if `response.json()`
would raise, and the raw text), or a raised `RequestException` (`Timeout`
and `ConnectionError` are subclasses, and `_run` catches only the base
class). -/
inductive SearchOutcome where
  | response (status : Nat) (body : Option Json) (text : String)
  | requestException (msg : String)

/-- Per-query outcomes: the mocked search provider. -/
def SearchEnv := String → SearchOutcome

/-- One source block of the formatted report (the f-string appended per
source, app.py lines 149-155), with the f-string's fields evaluated left to
right and `content[:300]` sliced before interpolation. -/
def tavilySourceEntry (i : Nat) (source : Json) : Except PyExc String :=
  match pyGet source "title" (.str "Untitled Source") with
  | .error e => .error e
  | .ok title =>
    match pyGet source "url" (.str "#") with
    | .error e => .error e
    | .ok url =>
      match pyGet source "content" (.str "No content available") with
      | .error e => .error e
      | .ok content =>
        match pySliceTo content 300 with
        | .error e => .error e
        | .ok clipped =>
          .ok ("\n**" ++ toString i ++ ". " ++ pyStr title ++ "**\n- **URL:** " ++
            pyStr url ++ "\n- **Content:** " ++ pyStr clipped ++ "...\n\n---\n")

/-- The `for i, source in enumerate(sources, 1)` loop (app.py lines
148-155), accumulating the source blocks; a raised exception aborts the
whole loop. -/
def tavilySources (start : Nat) : List Json → Except PyExc String
  | [] => .ok ""
  | s :: rest =>
    match tavilySourceEntry start s with
    | .error e => .error e
    | .ok entry =>
      match tavilySources (start + 1) rest with
      | .error e => .error e
      | .ok more => .ok (entry ++ more)

/-- `TavilySearchTool._run(query, max_results)` (app.py lines 115-162).
`max_results` and the API key only enter the request payload.  The value
is the string `_run` returns, or the exception it raises (only
`RequestException` is caught; `AttributeError`/`TypeError` from an
unexpected body shape escape). -/
def tavilyRun (query : String) (_max_results : Nat) (outcome : SearchOutcome) : Except PyExc String :=
  match outcome with
  | .requestException msg => .ok ("Search Error: " ++ msg)
  | .response status body text =>
    if status == 200 then
      match body with
      | none =>
        -- response.json() raised JSONDecodeError, a RequestException.
        .ok ("Search Error: " ++ jsonDecodeErrMsg)
      | some data =>
        match pyGet data "answer" (.str "No summary available") with
        | .error e => .error e
        | .ok answer =>
          let header := "\n## Search Results for: \"" ++ query ++ "\"\n\n### Summary\n" ++
            pyStr answer ++ "\n\n### Sources\n"
          match pyGet data "results" (.arr []) with
          | .error e => .error e
          | .ok sources =>
            if pyTruthy sources then
              match pyIterate sources with
              | .error e => .error e
              | .ok items =>
                match tavilySources 1 items with
                | .error e => .error e
                | .ok blocks => .ok (header ++ blocks)
            else .ok header
    else .ok ("Tavily API Error: " ++ toString status ++ " - " ++ text)

/-! ## Workflow state and graph (`ResearchState`, `ResearchGraph`, app.py lines 28-303) -/

/-- `ResearchState` (app.py lines 28-36).  The TypedDict declares
`research_plan: str`, but Python does not enforce it and `_call`'s success
path returns whatever JSON value sat under `content`, so the field is
modelled as `Json`; every value the source itself writes is a string.
`messages` is the append-only role/content log.  The graph of
`_build_graph` is a static two-node pipeline (planner, then searcher, then
END), so `graph.invoke` is embedded as sequential application of the two
node functions to the state. -/
structure ResearchState where
  topic : String
  research_plan : Json
  search_results : String
  analysis : String
  final_report : String
  messages : List Message
  next_step : String
  error : Option String

/-- Configuration built by `ResearchGraph.__init__` (app.py line 168):
`LMStudioLLM(base_url=lm_studio_url, model=model_name, timeout=180)` with
the class default `max_retries = 3`. -/
def graphCfg (lm_studio_url model_name : String) : LLMConfig :=
  { base_url := lm_studio_url, model := model_name, timeout := 180, max_retries := 3 }

/-- The planning prompt (f-string, app.py lines 188-199). -/
def plannerPrompt (topic : String) : String :=
  "\n        As a research methodology expert, create a detailed research plan to investigate this topic: \"" ++
  topic ++
  "\"\n\n        Your plan should include:\n        1. Key questions that need to be answered\n        2. Types of sources to prioritize (academic, news, official, etc.)\n        3. Multiple search strategies and keyword variations\n        4. Red flags or potential biases to watch for\n        5. Verification methods and fact-checking approaches\n\n        Make the plan specific, actionable, and thorough for this particular topic.\n        "

/-- The deterministic fallback plan template (f-string, app.py lines
205-230), substituted when the completion text carries an error marker. -/
def fallbackPlan (topic : String) : String :=
  "\n## Research Plan for: " ++ topic ++
  "\n\n### Key Questions\n- What is the current status of this topic?\n- What evidence supports or contradicts this claim?\n- What do authoritative sources say?\n\n### Search Strategy\n- Direct topic search\n- Evidence-based search\n- Expert opinion search\n- Recent news search\n\n### Source Prioritization\n- Official sources first\n- Peer-reviewed content\n- Reputable news outlets\n- Expert commentary\n\n### Verification Methods\n- Cross-reference multiple sources\n- Check publication dates\n- Verify author credentials\n- Look for consensus\n                "

/-- The `try:` block of `_research_planner_node` (app.py lines 201-234):
call the LLM, substitute the fallback template when the returned text
contains `"Error:"` or (lowercased) `"timed out"` — with Python's
short-circuit `or` and the exceptions `in`/`.lower()` raise on non-string
values — then write the plan, append the assistant message and set
`next_step`. -/
def plannerTryBody (cfg : LLMConfig) (env : LLMEnv) (state : ResearchState) :
    Except PyExc ResearchState :=
  match (LMStudioLLM_call cfg (plannerPrompt state.topic) env).result with
  | .error e => .error e
  | .ok research_plan =>
    match pyIn "Error:" research_plan with
    | .error e => .error e
    | .ok c1 =>
      match (if c1 then Except.ok true else
        match pyLower research_plan with
        | .error e => .error e
        | .ok low => pyIn "timed out" low) with
      | .error e => .error e
      | .ok marker =>
        let plan := if marker then Json.str (fallbackPlan state.topic) else research_plan
        .ok { state with
          research_plan := plan
          messages := state.messages ++
            [Message.mk .assistant ("Research plan created for: " ++ state.topic)]
          next_step := "web_searcher" }

/-- `_research_planner_node` (app.py lines 185-239): the `try:` body, with
`except Exception as e:` (lines 235-237) recording the error and a minimal
fallback plan, touching nothing else. -/
def researchPlannerNode (cfg : LLMConfig) (env : LLMEnv) (state : ResearchState) :
    ResearchState :=
  match plannerTryBody cfg env state with
  | .ok s => s
  | .error e =>
    { state with
      error := some ("Error in research planning: " ++ pyExcStr e)
      research_plan := .str ("Basic research plan for: " ++ state.topic ++
        " (Error occurred in detailed planning)") }

/-- The fixed query variants (app.py lines 245-250). -/
def searchQueries (topic : String) : List String :=
  [topic,
   topic ++ " facts evidence 2024",
   topic ++ " expert analysis",
   topic ++ " recent research findings"]

/-- One iteration of the search loop (app.py lines 256-263): run the tool
and label the outcome.  The inner `except Exception as e:` catches every
exception `_run` raises, so each variant always contributes one entry. -/
def variantEntry (env : SearchEnv) (i : Nat) (query : String) : String :=
  match tavilyRun query 3 (env query) with
  | .ok result =>
    "### Search Query " ++ toString (i + 1) ++ ": '" ++ query ++ "'\n" ++ result ++ "\n"
  | .error e =>
    "**Search " ++ toString (i + 1) ++ "** for '" ++ query ++ "' failed: " ++ pyExcStr e

/-- Whether a variant increments `successful_searches` (app.py lines
258-260): `_run` returned without raising and its text lacks `"Error:"`. -/
def variantSuccess (env : SearchEnv) (query : String) : Bool :=
  match tavilyRun query 3 (env query) with
  | .ok result => !(strIn "Error:" result)
  | .error _ => false

/-- The `all_results` list after the loop: one entry per query variant, in
original query order. -/
def searchAllResults (env : SearchEnv) (topic : String) : List String :=
  (searchQueries topic).enum.map (fun p => variantEntry env p.1 p.2)

/-- The `successful_searches` counter after the loop. -/
def successfulSearches (env : SearchEnv) (topic : String) : Nat :=
  ((searchQueries topic).filter (variantSuccess env)).length

/-- `_web_searcher_node` (app.py lines 241-274).  The loop body catches
every exception per variant, and what follows it (a join and two
assignments plus an append) cannot raise, so the node's outer
`except Exception` (lines 270-272) is unreachable and `error` is never
written here. -/
def webSearcherNode (env : SearchEnv) (state : ResearchState) : ResearchState :=
  let topic := state.topic
  let combined_results := pyJoin "\n" (searchAllResults env topic)
  { state with
    search_results := combined_results
    messages := state.messages ++
      [Message.mk .assistant ("Completed " ++ toString (searchQueries topic).length ++
        " searches (" ++ toString (successfulSearches env topic) ++ " successful) for: " ++ topic)]
    next_step := "complete" }

/-- The initial state built by `research_topic` (app.py lines 279-288). -/
def initialState (topic : String) : ResearchState :=
  { topic := topic
    research_plan := .str ""
    search_results := ""
    analysis := ""
    final_report := ""
    messages := [Message.mk .human ("Research topic: " ++ topic)]
    next_step := "research_planner"
    error := none }

/-- `self.graph.invoke(initial_state)`: the compiled static pipeline
(entry point `research_planner`, edge to `web_searcher`, edge to END;
app.py lines 176-181) applied to a state. -/
def graphInvoke (cfg : LLMConfig) (llmEnv : LLMEnv) (searchEnv : SearchEnv)
    (state : ResearchState) : ResearchState :=
  webSearcherNode searchEnv (researchPlannerNode cfg llmEnv state)

/-- The final state of a run of `research_topic(topic)`. -/
def researchTopicFinal (url model : String) (llmEnv : LLMEnv) (searchEnv : SearchEnv)
    (topic : String) : ResearchState :=
  graphInvoke (graphCfg url model) llmEnv searchEnv (initialState topic)

/-- The record `research_topic` returns (app.py lines 293-297). -/
structure ResearchResult where
  research_plan : Json
  search_results : String
  error : Option String

/-- `ResearchGraph.research_topic(topic)` (app.py lines 276-303): build
the initial state, run the pipeline, reduce the final state.  The node
functions are total (each catches its exceptions), so the facade's own
`except Exception` (lines 298-303) is unreachable and the function always
returns this record — no exception reaches the caller. -/
def researchTopic (url model : String) (llmEnv : LLMEnv) (searchEnv : SearchEnv)
    (topic : String) : ResearchResult :=
  let final := researchTopicFinal url model llmEnv searchEnv topic
  { research_plan := final.research_plan
    search_results := final.search_results
    error := final.error }

/-! ## Test fixture: the spec's one-success/three-failure search scenario -/

/-- A mocked search provider for the spec's scenario: the raw query
`"topic"` gets a 200 response with three sources, every other query a 500
error response. -/
def scenarioSearchEnv : SearchEnv := fun q =>
  if q = "topic" then
    .response 200 (some (.obj
      [("answer", .str "A concise summary of the findings."),
       ("results", .arr
         [.obj [("title", .str "First source"), ("url", .str "https://a.example"),
                ("content", .str "First content snippet")],
          .obj [("title", .str "Second source"), ("url", .str "https://b.example"),
                ("content", .str "Second content snippet")],
          .obj [("title", .str "Third source"), ("url", .str "https://c.example"),
                ("content", .str "Third content snippet")]])])) "ok"
  else .response 500 none "Internal Server Error"

/-- Whether the retry loop sleeps after a (non-final) attempt with this
outcome: the exception handlers fall through to the backoff sleep (an
undecodable 200 body raises `JSONDecodeError`, also an exception), while a
non-200 response reaches `continue` and skips it. -/
def sleptAfter : LLMAttemptOutcome → Bool
  | .timeout => true
  | .connectionError => true
  | .requestException _ => true
  | .response status body _ => status == 200 && body.isNone

/-- The completion endpoint being unreachable on one attempt: the request
raises `Timeout` or `ConnectionError`. -/
def llmServiceDown : LLMAttemptOutcome → Prop
  | .timeout => True
  | .connectionError => True
  | _ => False

/-- The search provider being unreachable for a query: the request raises
a `RequestException`. -/
def searchServiceDown : SearchOutcome → Prop
  | .requestException _ => True
  | _ => False

/-! ## String helper lemmas -/

/-- Unfolding of the Python substring test. -/
theorem strIn_iff (n h : String) : strIn n h = true ↔ n.data <:+: h.data := by
  simp [strIn]

/-- Associativity of string append (via the underlying character lists). -/
theorem strAppend_assoc (a b c : String) : a ++ b ++ c = a ++ (b ++ c) := by
  apply String.ext
  simp [String.data_append]

/-- A substring of the left part survives appending on the right. -/
theorem strIn_append_left (n a b : String) (h : strIn n a = true) :
    strIn n (a ++ b) = true := by
  rw [strIn_iff] at h ⊢
  rw [String.data_append]
  exact h.trans (List.prefix_append _ _).isInfix

/-- A substring of the right part survives appending on the left. -/
theorem strIn_append_right (n a b : String) (h : strIn n b = true) :
    strIn n (a ++ b) = true := by
  rw [strIn_iff] at h ⊢
  rw [String.data_append]
  exact h.trans (List.suffix_append _ _).isInfix

/-- A string always contains itself when sandwiched between two others. -/
theorem strIn_glue (n a b : String) : strIn n (a ++ n ++ b) = true := by
  rw [strIn_iff]
  simp only [String.data_append]
  exact List.infix_append _ _ _

/-- A string with a non-empty substring is non-empty. -/
theorem ne_empty_of_strIn (n s : String) (hn : n ≠ "") (h : strIn n s = true) :
    s ≠ "" := by
  rw [strIn_iff] at h
  intro hs
  subst hs
  have hd : n.data = [] := List.infix_nil.mp h
  exact hn (String.ext hd)

/-- An append whose left part is non-empty is non-empty. -/
theorem append_ne_empty_left (a b : String) (h : a ≠ "") : a ++ b ≠ "" := by
  intro hab
  apply h
  have hd := congrArg String.data hab
  rw [String.data_append] at hd
  exact String.ext (List.append_eq_nil.mp hd).1

/-! ## Retry-loop lemmas (`LMStudioLLM._call`) -/

/-- The loop never runs more iterations than remain. -/
theorem callAux_attempts_le (cfg : LLMConfig) (env : LLMEnv) (remaining : Nat) :
    ∀ attempt, (callAux cfg env remaining attempt).attempts ≤ remaining := by
  induction remaining with
  | zero => intro attempt; simp [callAux]
  | succ r ih =>
    intro attempt
    unfold callAux
    cases env attempt <;> dsimp only <;> (repeat' split) <;> simp_all

/-- A loop with at least one iteration left issues at least one attempt. -/
theorem callAux_attempts_pos (cfg : LLMConfig) (env : LLMEnv) (remaining attempt : Nat)
    (h : 1 ≤ remaining) : 1 ≤ (callAux cfg env remaining attempt).attempts := by
  match remaining, h with
  | r + 1, _ =>
    unfold callAux
    cases env attempt <;> dsimp only <;> (repeat' split) <;> simp

/-- Backoff characterisation of the retry loop: started at index `attempt`
with `remaining` iterations left (so that `attempt + remaining` equals the
configured total), the sleeps performed are exactly `2 ^ i` for the
executed non-final attempt indices `i` whose outcome ended in an exception
— never for an HTTP failure status — in increasing order of `i`. -/
theorem callAux_sleeps (cfg : LLMConfig) (env : LLMEnv) (remaining : Nat) :
    ∀ attempt, attempt + remaining = cfg.max_retries →
    (callAux cfg env remaining attempt).sleeps =
      ((List.range' attempt ((callAux cfg env remaining attempt).attempts - 1)).filter
        (fun i => sleptAfter (env i))).map (fun i => 2 ^ i) := by
  induction remaining with
  | zero => intro attempt _; simp [callAux]
  | succ r ih =>
    intro attempt hinv
    have hinv' : (attempt + 1) + r = cfg.max_retries := by omega
    have hr : (attempt == cfg.max_retries - 1) = false → 1 ≤ r := by
      intro hlast
      have : attempt ≠ cfg.max_retries - 1 := by simpa using hlast
      omega
    have tailEq : (attempt == cfg.max_retries - 1) = false →
        ∃ k, (callAux cfg env r (attempt + 1)).attempts = k + 1 ∧
          (callAux cfg env r (attempt + 1)).sleeps =
            ((List.range' (attempt + 1) k).filter
              (fun i => sleptAfter (env i))).map (fun i => 2 ^ i) := by
      intro hlast
      have hpos := callAux_attempts_pos cfg env r (attempt + 1) (hr hlast)
      refine ⟨(callAux cfg env r (attempt + 1)).attempts - 1, by omega, ?_⟩
      have := ih (attempt + 1) hinv'
      rw [this]
    have sleepStep : (attempt == cfg.max_retries - 1) = false →
        sleptAfter (env attempt) = true →
        2 ^ attempt :: (callAux cfg env r (attempt + 1)).sleeps =
          ((List.range' attempt ((callAux cfg env r (attempt + 1)).attempts + 1 - 1)).filter
            (fun i => sleptAfter (env i))).map (fun i => 2 ^ i) := by
      intro hlast hslept
      obtain ⟨k, hk, hs⟩ := tailEq hlast
      rw [Nat.add_sub_cancel, hk, List.range'_succ, List.filter_cons, hslept]
      simp only [if_true, List.map_cons]
      rw [hs]
    have skipStep : (attempt == cfg.max_retries - 1) = false →
        sleptAfter (env attempt) = false →
        (callAux cfg env r (attempt + 1)).sleeps =
          ((List.range' attempt ((callAux cfg env r (attempt + 1)).attempts + 1 - 1)).filter
            (fun i => sleptAfter (env i))).map (fun i => 2 ^ i) := by
      intro hlast hslept
      obtain ⟨k, hk, hs⟩ := tailEq hlast
      rw [Nat.add_sub_cancel, hk, List.range'_succ, List.filter_cons, hslept]
      simp only [if_false, Bool.false_eq_true]
      rw [hs]
    unfold callAux
    cases henv : env attempt with
    | response status body text =>
      by_cases h200 : (status == 200) = true
      · simp only [h200, if_true]
        cases body with
        | some parsed =>
          cases hext : extractContent parsed <;> simp [hext]
        | none =>
          by_cases hlast : (attempt == cfg.max_retries - 1) = true
          · simp [hlast]
          · rw [Bool.not_eq_true] at hlast
            simp only [hlast, Bool.false_eq_true, if_false]
            exact sleepStep hlast (by rw [henv]; simp [sleptAfter, h200])
      · rw [Bool.not_eq_true] at h200
        simp only [h200, Bool.false_eq_true, if_false]
        by_cases hlast : (attempt == cfg.max_retries - 1) = true
        · simp [hlast]
        · rw [Bool.not_eq_true] at hlast
          simp only [hlast, Bool.false_eq_true, if_false]
          exact skipStep hlast (by rw [henv]; simp [sleptAfter, h200])
    | timeout =>
      by_cases hlast : (attempt == cfg.max_retries - 1) = true
      · simp [hlast]
      · rw [Bool.not_eq_true] at hlast
        simp only [hlast, Bool.false_eq_true, if_false]
        exact sleepStep hlast (by rw [henv]; rfl)
    | connectionError =>
      by_cases hlast : (attempt == cfg.max_retries - 1) = true
      · simp [hlast]
      · rw [Bool.not_eq_true] at hlast
        simp only [hlast, Bool.false_eq_true, if_false]
        exact sleepStep hlast (by rw [henv]; rfl)
    | requestException msg =>
      by_cases hlast : (attempt == cfg.max_retries - 1) = true
      · simp [hlast]
      · rw [Bool.not_eq_true] at hlast
        simp only [hlast, Bool.false_eq_true, if_false]
        exact sleepStep hlast (by rw [henv]; rfl)

/-- When every attempt finds the completion endpoint unreachable, the
retry loop returns (it does not raise) an error string carrying the
`"Error:"` marker. -/
theorem callAux_down (cfg : LLMConfig) (env : LLMEnv) (h : ∀ i, llmServiceDown (env i)) :
    ∀ remaining attempt, ∃ m,
      (callAux cfg env remaining attempt).result = .ok (.str m) ∧ strIn "Error:" m = true := by
  intro remaining
  induction remaining with
  | zero =>
    intro attempt
    exact ⟨"Error: All retry attempts failed", rfl, by decide⟩
  | succ r ih =>
    intro attempt
    unfold callAux
    cases henv : env attempt with
    | response status body text =>
      have hd := h attempt
      rw [henv] at hd
      simp [llmServiceDown] at hd
    | requestException msg =>
      have hd := h attempt
      rw [henv] at hd
      simp [llmServiceDown] at hd
    | timeout =>
      by_cases hlast : (attempt == cfg.max_retries - 1) = true
      · refine ⟨"Error: Request timed out after " ++ toString cfg.timeout ++
          " seconds. Please check if LM Studio is running and responsive.", ?_, ?_⟩
        · simp [hlast]
        · exact strIn_append_left _ _ _ (strIn_append_left _ _ _ (by decide))
      · rw [Bool.not_eq_true] at hlast
        simp only [hlast, Bool.false_eq_true, if_false]
        exact ih (attempt + 1)
    | connectionError =>
      by_cases hlast : (attempt == cfg.max_retries - 1) = true
      · refine ⟨"Error: Cannot connect to LM Studio at " ++ cfg.base_url ++
          ". Please ensure LM Studio is running.", ?_, ?_⟩
        · simp [hlast]
        · exact strIn_append_left _ _ _ (strIn_append_left _ _ _ (by decide))
      · rw [Bool.not_eq_true] at hlast
        simp only [hlast, Bool.false_eq_true, if_false]
        exact ih (attempt + 1)

/-! ## Planner-node lemmas -/

/-- Inversion of a successful planner try-body: the output state is the
input with exactly the plan written, one assistant message appended and
`next_step` advanced. -/
theorem plannerTryBody_ok (cfg : LLMConfig) (env : LLMEnv) (s s' : ResearchState)
    (h : plannerTryBody cfg env s = .ok s') :
    ∃ plan, s' = { s with
      research_plan := plan
      messages := s.messages ++ [Message.mk .assistant ("Research plan created for: " ++ s.topic)]
      next_step := "web_searcher" } := by
  unfold plannerTryBody at h
  split at h
  · exact Except.noConfusion h
  · split at h
    · exact Except.noConfusion h
    · split at h
      · exact Except.noConfusion h
      · exact ⟨_, (Except.ok.inj h).symm⟩

/-- The planner node on a successful try-body. -/
theorem plannerNode_ok (cfg : LLMConfig) (env : LLMEnv) (s s' : ResearchState)
    (h : plannerTryBody cfg env s = .ok s') : researchPlannerNode cfg env s = s' := by
  unfold researchPlannerNode
  rw [h]

/-- The planner node on a caught exception: only `error` and
`research_plan` are written. -/
theorem plannerNode_err (cfg : LLMConfig) (env : LLMEnv) (s : ResearchState) (e : PyExc)
    (h : plannerTryBody cfg env s = .error e) :
    researchPlannerNode cfg env s = { s with
      error := some ("Error in research planning: " ++ pyExcStr e)
      research_plan := .str ("Basic research plan for: " ++ s.topic ++
        " (Error occurred in detailed planning)") } := by
  unfold researchPlannerNode
  rw [h]

/-- The planner never changes the topic. -/
theorem plannerNode_topic (cfg : LLMConfig) (env : LLMEnv) (s : ResearchState) :
    (researchPlannerNode cfg env s).topic = s.topic := by
  cases h : plannerTryBody cfg env s with
  | ok s' =>
    rw [plannerNode_ok cfg env s s' h]
    obtain ⟨plan, rfl⟩ := plannerTryBody_ok cfg env s s' h
    rfl
  | error e => rw [plannerNode_err cfg env s e h]

/-- When the completion client returned a string carrying an error marker
(`"Error:"`, or lowercased `"timed out"`), the planner substitutes the
fallback template. -/
theorem plannerTryBody_marker (cfg : LLMConfig) (env : LLMEnv) (s : ResearchState) (t : String)
    (hres : (LMStudioLLM_call cfg (plannerPrompt s.topic) env).result = .ok (.str t))
    (hm : (strIn "Error:" t || strIn "timed out" (String.mk (t.data.map Char.toLower))) = true) :
    plannerTryBody cfg env s = .ok { s with
      research_plan := .str (fallbackPlan s.topic)
      messages := s.messages ++ [Message.mk .assistant ("Research plan created for: " ++ s.topic)]
      next_step := "web_searcher" } := by
  unfold plannerTryBody
  rw [hres]
  cases hc : strIn "Error:" t with
  | true => simp [pyIn, hc]
  | false =>
    rw [hc, Bool.false_or] at hm
    simp [pyIn, pyLower, hc, hm]

/-- Each variant's entry in `all_results` is a non-empty string, whether
`_run` returned or raised. -/
theorem variantEntry_ne_empty (env : SearchEnv) (i : Nat) (q : String) :
    variantEntry env i q ≠ "" := by
  unfold variantEntry
  cases h : tavilyRun q 3 (env q) with
  | ok r =>
    exact append_ne_empty_left _ _ (append_ne_empty_left _ _ (append_ne_empty_left _ _
      (append_ne_empty_left _ _ (append_ne_empty_left _ _ (append_ne_empty_left _ _
        (by decide))))))
  | error e =>
    exact append_ne_empty_left _ _ (append_ne_empty_left _ _ (append_ne_empty_left _ _
      (append_ne_empty_left _ _ (append_ne_empty_left _ _ (by decide)))))

/-! ## Claim theorems -/

/-- C1: `research_topic` is a total reduction of the final pipeline state
(it is defined for every topic and every behaviour of both mocked
services, with each stage catching its exceptions, so no exception crosses
the facade; failures surface only through the returned record), and when
the completion endpoint and the search provider are unreachable on every
call, the returned `research_plan` is the non-empty fallback template and
`search_results` is likewise non-empty. -/
theorem C1_run_returns_nonempty_fallback (url model topic : String)
    (llmEnv : LLMEnv) (searchEnv : SearchEnv)
    (hllm : ∀ i, llmServiceDown (llmEnv i))
    (hsearch : ∀ q, searchServiceDown (searchEnv q)) :
    (researchTopic url model llmEnv searchEnv topic).research_plan = .str (fallbackPlan topic) ∧
    fallbackPlan topic ≠ "" ∧
    (researchTopic url model llmEnv searchEnv topic).search_results ≠ "" ∧
    strIn "Search Error:" (researchTopic url model llmEnv searchEnv topic).search_results
      = true := by
  obtain ⟨m, hres, hmark⟩ :=
    callAux_down (graphCfg url model) llmEnv hllm (graphCfg url model).max_retries 0
  have hres' : (LMStudioLLM_call (graphCfg url model)
      (plannerPrompt (initialState topic).topic) llmEnv).result = .ok (.str m) := hres
  have hbody := plannerTryBody_marker (graphCfg url model) llmEnv (initialState topic) m hres'
    (by rw [hmark]; rfl)
  have hnode := plannerNode_ok _ _ _ _ hbody
  obtain ⟨msg0, hmsg0⟩ : ∃ msg, searchEnv topic = .requestException msg := by
    have hd := hsearch topic
    cases h0 : searchEnv topic with
    | requestException msg => exact ⟨msg, rfl⟩
    | response status body text => rw [h0] at hd; simp [searchServiceDown] at hd
  have hentry0 : strIn "Search Error:" (variantEntry searchEnv 0 topic) = true := by
    unfold variantEntry
    rw [show tavilyRun topic 3 (searchEnv topic) = .ok ("Search Error: " ++ msg0) by
      rw [hmsg0]; rfl]
    apply strIn_append_left
    apply strIn_append_right
    rw [show ("Search Error: " ++ msg0) = ("Search Error:" ++ (" " ++ msg0)) by
      rw [← strAppend_assoc]; rfl]
    exact strIn_append_left _ _ _ (by decide)
  unfold researchTopic researchTopicFinal graphInvoke
  rw [hnode]
  refine ⟨rfl, ?_, ?_, ?_⟩
  · exact append_ne_empty_left _ _ (append_ne_empty_left _ _ (by decide))
  · exact append_ne_empty_left _ _ (append_ne_empty_left _ _
      (variantEntry_ne_empty searchEnv 0 topic))
  · exact strIn_append_left _ _ _ (strIn_append_left _ _ _ hentry0)

/-- C1 witness: concrete instantiation with every completion attempt
timing out and every search raising a connection failure. -/
theorem C1_run_returns_nonempty_fallback_witness :
    (researchTopic "http://localhost:1234/v1" "google/gemma-3-1b"
      (fun _ => .timeout) (fun _ => .requestException "Connection refused")
      "quantum computing").research_plan = .str (fallbackPlan "quantum computing") ∧
    fallbackPlan "quantum computing" ≠ "" ∧
    (researchTopic "http://localhost:1234/v1" "google/gemma-3-1b"
      (fun _ => .timeout) (fun _ => .requestException "Connection refused")
      "quantum computing").search_results ≠ "" ∧
    strIn "Search Error:" (researchTopic "http://localhost:1234/v1" "google/gemma-3-1b"
      (fun _ => .timeout) (fun _ => .requestException "Connection refused")
      "quantum computing").search_results = true :=
  C1_run_returns_nonempty_fallback "http://localhost:1234/v1" "google/gemma-3-1b"
    "quantum computing" (fun _ => .timeout) (fun _ => .requestException "Connection refused")
    (fun _ => trivial) (fun _ => trivial)

/-- C2 counterexample: with the class-default configuration
(`max_retries = 3`) and every attempt answered by an HTTP 500 failure
status, three attempts are issued yet no sleep happens at all — the
source's `continue` skips the backoff — refuting the claimed `2^attempt`
sleep between every pair of consecutive attempts (which would have been
`[2^0, 2^1]`). -/
theorem C2_http_failure_skips_backoff_cex :
    (LMStudioLLM_call {} "ping" (fun _ => .response 500 none "Internal Server Error")).attempts = 3 ∧
    (LMStudioLLM_call {} "ping" (fun _ => .response 500 none "Internal Server Error")).sleeps = [] ∧
    (LMStudioLLM_call {} "ping" (fun _ => .response 500 none "Internal Server Error")).sleeps ≠
      [2 ^ 0, 2 ^ 1] := by
  refine ⟨rfl, rfl, ?_⟩
  intro h
  rw [show (LMStudioLLM_call {} "ping"
    (fun _ => .response 500 none "Internal Server Error")).sleeps = [] from rfl] at h
  exact List.noConfusion h

/-- C2 (amended): the client issues at most `max_retries` attempts, and
the backoff sleeps are exactly `2^i` for the executed non-final attempt
indices `i` whose outcome ended in a raised exception (timeout, connection
failure, other request failure, undecodable 200 body), in increasing
order; an HTTP failure status retries immediately with no sleep. -/
theorem C2_retry_backoff_amended (cfg : LLMConfig) (prompt : String) (env : LLMEnv) :
    (LMStudioLLM_call cfg prompt env).attempts ≤ cfg.max_retries ∧
    (LMStudioLLM_call cfg prompt env).sleeps =
      ((List.range' 0 ((LMStudioLLM_call cfg prompt env).attempts - 1)).filter
        (fun i => sleptAfter (env i))).map (fun i => 2 ^ i) := by
  refine ⟨callAux_attempts_le cfg env cfg.max_retries 0, ?_⟩
  exact callAux_sleeps cfg env cfg.max_retries 0 (by omega)

/-- C3: a 200 response whose JSON body decodes but lacks the expected
`choices[0].message.content` structure makes `_call` raise an uncaught
`KeyError` — the exception handlers cover only the `requests` exception
types — contradicting the claim (and §4.1 of the spec) that such a body is
a caught failure mode answered with a descriptive error string. -/
theorem C3_malformed_200_uncaught_keyError :
    (LMStudioLLM_call {} "Say hello"
      (fun _ => .response 200 (some (.obj [("id", .str "chatcmpl-1")])) "irrelevant")).result
      = .error (.keyError "choices") := rfl

/-- The searcher's appended message, with the query count evaluated. -/
theorem webSearcherNode_messages (env : SearchEnv) (s : ResearchState) :
    (webSearcherNode env s).messages = s.messages ++
      [Message.mk .assistant ("Completed 4 searches (" ++
        toString (successfulSearches env s.topic) ++ " successful) for: " ++ s.topic)] := by
  show s.messages ++
      [Message.mk .assistant ("Completed " ++ toString (searchQueries s.topic).length ++
        " searches (" ++ toString (successfulSearches env s.topic) ++
        " successful) for: " ++ s.topic)] = _
  rw [show ((searchQueries s.topic).length) = 4 from rfl]
  rw [show (toString (4 : Nat) : String) = "4" from rfl]
  rw [show ("Completed " ++ "4" ++ " searches (" : String) = "Completed 4 searches (" from rfl]

/-- C4: after a completed exception-free run (the planner's `try:` body
succeeded; the searcher cannot raise), the final `messages` log is exactly
the initial human entry followed by the planner's assistant entry and the
searcher's assistant entry, in execution order — length exactly 3. -/
theorem C4_three_messages_in_order (url model topic : String) (llmEnv : LLMEnv)
    (searchEnv : SearchEnv)
    (h : ∃ s1, plannerTryBody (graphCfg url model) llmEnv (initialState topic) = .ok s1) :
    ∃ k : Nat, (researchTopicFinal url model llmEnv searchEnv topic).messages =
      [Message.mk .human ("Research topic: " ++ topic),
       Message.mk .assistant ("Research plan created for: " ++ topic),
       Message.mk .assistant ("Completed 4 searches (" ++ toString k ++
         " successful) for: " ++ topic)] ∧
      (researchTopicFinal url model llmEnv searchEnv topic).messages.length = 3 := by
  obtain ⟨s1, h⟩ := h
  obtain ⟨plan, rfl⟩ := plannerTryBody_ok _ _ _ _ h
  refine ⟨successfulSearches searchEnv topic, ?_, ?_⟩
  · unfold researchTopicFinal graphInvoke
    rw [plannerNode_ok _ _ _ _ h, webSearcherNode_messages]
    rfl
  · unfold researchTopicFinal graphInvoke
    rw [plannerNode_ok _ _ _ _ h]
    rfl

/-- C4 witness: a 200 response with a well-formed body for every
completion attempt and a failing search provider. -/
theorem C4_three_messages_in_order_witness :
    ∃ k : Nat, (researchTopicFinal "http://localhost:1234/v1" "google/gemma-3-1b"
      (fun _ => .response 200 (some (.obj [("choices", .arr
        [.obj [("message", .obj [("content", .str "A step-by-step plan.")])]])])) "ok")
      (fun _ => .requestException "down") "dark matter").messages =
      [Message.mk .human ("Research topic: " ++ "dark matter"),
       Message.mk .assistant ("Research plan created for: " ++ "dark matter"),
       Message.mk .assistant ("Completed 4 searches (" ++ toString k ++
         " successful) for: " ++ "dark matter")] ∧
      (researchTopicFinal "http://localhost:1234/v1" "google/gemma-3-1b"
        (fun _ => .response 200 (some (.obj [("choices", .arr
          [.obj [("message", .obj [("content", .str "A step-by-step plan.")])]])])) "ok")
        (fun _ => .requestException "down") "dark matter").messages.length = 3 :=
  C4_three_messages_in_order "http://localhost:1234/v1" "google/gemma-3-1b" "dark matter"
    (fun _ => .response 200 (some (.obj [("choices", .arr
      [.obj [("message", .obj [("content", .str "A step-by-step plan.")])]])])) "ok")
    (fun _ => .requestException "down") ⟨_, rfl⟩

set_option maxRecDepth 8192 in
/-- C5: the searcher appends one entry per query variant in original query
order (first conjunct), each entry is labelled with its originating query
(second), an entry depends only on its own query's outcome, so one
variant's failure cannot affect the others (third), and in the spec's
scenario — provider succeeds for the raw query `"topic"`, fails with a 500
for the three suffixed variants — the combined buffer holds exactly one
success section and three error-marked sections in order, with the success
counter at 1 (fourth). -/
theorem C5_per_variant_isolation_and_scenario :
    (∀ (env : SearchEnv) (topic : String),
      searchAllResults env topic =
        [variantEntry env 0 topic,
         variantEntry env 1 (topic ++ " facts evidence 2024"),
         variantEntry env 2 (topic ++ " expert analysis"),
         variantEntry env 3 (topic ++ " recent research findings")] ∧
      (∀ s : ResearchState, s.topic = topic →
        (webSearcherNode env s).search_results = pyJoin "\n" (searchAllResults env topic))) ∧
    (∀ (env : SearchEnv) (i : Nat) (q : String),
      strIn ("'" ++ q ++ "'") (variantEntry env i q) = true) ∧
    (∀ (env : SearchEnv) (i : Nat) (q : String),
      variantEntry env i q = variantEntry (fun _ => env q) i q) ∧
    (∃ a b c d, searchAllResults scenarioSearchEnv "topic" = [a, b, c, d] ∧
      strIn "Error:" a = false ∧ strIn "Error:" b = true ∧ strIn "Error:" c = true ∧
      strIn "Error:" d = true ∧ successfulSearches scenarioSearchEnv "topic" = 1) := by
  refine ⟨?_, ?_, ?_, ?_⟩
  · intro env topic
    refine ⟨rfl, ?_⟩
    intro s hs
    rw [← hs]
    rfl
  · intro env i q
    unfold variantEntry
    cases h : tavilyRun q 3 (env q) with
    | ok r =>
      rw [strIn_iff]
      simp only [String.data_append, List.append_assoc]
      refine ⟨"### Search Query ".data ++ ((toString (i + 1)).data ++ ": ".data),
        "\n".data ++ (r.data ++ "\n".data), ?_⟩
      simp [List.append_assoc]
    | error e =>
      rw [strIn_iff]
      simp only [String.data_append, List.append_assoc]
      refine ⟨"**Search ".data ++ ((toString (i + 1)).data ++ "** for ".data),
        " failed: ".data ++ (pyExcStr e).data, ?_⟩
      simp [List.append_assoc]
  · intro env i q
    rfl
  · exact ⟨_, _, _, _, rfl, rfl, rfl, rfl, rfl, rfl⟩

/-- C6: the searching stage issues exactly these four query variants, in
this fixed order, and its combined output is the join of their entries. -/
theorem C6_four_fixed_query_variants (topic : String) (env : SearchEnv) (s : ResearchState) :
    searchQueries topic =
      [topic, topic ++ " facts evidence 2024", topic ++ " expert analysis",
       topic ++ " recent research findings"] ∧
    (searchQueries topic).length = 4 ∧
    (webSearcherNode env s).search_results = pyJoin "\n"
      [variantEntry env 0 s.topic,
       variantEntry env 1 (s.topic ++ " facts evidence 2024"),
       variantEntry env 2 (s.topic ++ " expert analysis"),
       variantEntry env 3 (s.topic ++ " recent research findings")] :=
  ⟨rfl, rfl, rfl⟩

set_option maxRecDepth 8192 in
/-- C7: whenever the completion client returned a string carrying an error
marker (substring `"Error:"`, or `"timed out"` after lowercasing), the
planner substitutes the fixed fallback template (first conjunct); in
particular when every attempt times out, the full run's plan is exactly
that template (second); and for every topic the template contains the four
literal section headers and is non-empty (third). -/
theorem C7_fallback_plan_on_error_marker :
    (∀ (cfg : LLMConfig) (env : LLMEnv) (s : ResearchState) (t : String),
      (LMStudioLLM_call cfg (plannerPrompt s.topic) env).result = .ok (.str t) →
      (strIn "Error:" t || strIn "timed out" (String.mk (t.data.map Char.toLower))) = true →
      (researchPlannerNode cfg env s).research_plan = .str (fallbackPlan s.topic)) ∧
    (∀ (url model topic : String) (searchEnv : SearchEnv),
      (researchTopicFinal url model (fun _ => .timeout) searchEnv topic).research_plan =
        .str (fallbackPlan topic)) ∧
    (∀ topic : String,
      strIn "Key Questions" (fallbackPlan topic) = true ∧
      strIn "Search Strategy" (fallbackPlan topic) = true ∧
      strIn "Source Prioritization" (fallbackPlan topic) = true ∧
      strIn "Verification Methods" (fallbackPlan topic) = true ∧
      fallbackPlan topic ≠ "") := by
  refine ⟨?_, ?_, ?_⟩
  · intro cfg env s t hres hm
    rw [plannerNode_ok _ _ _ _ (plannerTryBody_marker cfg env s t hres hm)]
  · intro url model topic searchEnv
    have hres : (LMStudioLLM_call (graphCfg url model)
        (plannerPrompt (initialState topic).topic) (fun _ => .timeout)).result =
        .ok (.str ("Error: Request timed out after " ++ toString (180 : Nat) ++
          " seconds. Please check if LM Studio is running and responsive.")) := rfl
    have hmark : strIn "Error:" ("Error: Request timed out after " ++ toString (180 : Nat) ++
        " seconds. Please check if LM Studio is running and responsive.") = true :=
      strIn_append_left _ _ _ (strIn_append_left _ _ _ (by decide))
    have hbody := plannerTryBody_marker (graphCfg url model) (fun _ => .timeout)
      (initialState topic) _ hres (by rw [hmark]; rfl)
    unfold researchTopicFinal graphInvoke
    rw [plannerNode_ok _ _ _ _ hbody]
    rfl
  · intro topic
    refine ⟨?_, ?_, ?_, ?_, ?_⟩
    · exact strIn_append_right _ _ _ (by decide)
    · exact strIn_append_right _ _ _ (by decide)
    · exact strIn_append_right _ _ _ (by decide)
    · exact strIn_append_right _ _ _ (by decide)
    · exact append_ne_empty_left _ _ (append_ne_empty_left _ _ (by decide))

set_option maxRecDepth 8192 in
/-- C7 witness: the first conjunct applied to the class-default
configuration with every attempt timing out, and the second to a concrete
full run on the spec's scenario topic. -/
theorem C7_fallback_plan_on_error_marker_witness :
    (researchPlannerNode {} (fun _ => .timeout)
      (initialState "quantum error correction")).research_plan =
      .str (fallbackPlan "quantum error correction") ∧
    (researchTopicFinal "http://localhost:1234/v1" "google/gemma-3-1b"
      (fun _ => .timeout) (fun _ => .requestException "down")
      "quantum error correction").research_plan =
      .str (fallbackPlan "quantum error correction") :=
  ⟨C7_fallback_plan_on_error_marker.1 {} (fun _ => .timeout)
    (initialState "quantum error correction")
    "Error: Request timed out after 180 seconds. Please check if LM Studio is running and responsive."
    rfl rfl,
   C7_fallback_plan_on_error_marker.2.1 "http://localhost:1234/v1" "google/gemma-3-1b"
    "quantum error correction" (fun _ => .requestException "down")⟩

/-- C8: the searcher reads but never writes `error` (its reachable path
does not touch the field), so an error recorded by the planning stage is
still present, unchanged, in the final state of the run. -/
theorem C8_error_never_cleared :
    (∀ (env : SearchEnv) (s : ResearchState), (webSearcherNode env s).error = s.error) ∧
    (∀ (url model topic : String) (llmEnv : LLMEnv) (searchEnv : SearchEnv) (msg : String),
      (researchPlannerNode (graphCfg url model) llmEnv (initialState topic)).error = some msg →
      (researchTopicFinal url model llmEnv searchEnv topic).error = some msg) := by
  refine ⟨fun env s => rfl, ?_⟩
  intro url model topic llmEnv searchEnv msg h
  exact h

/-- C8 witness: a malformed 200 body makes the planner catch a `KeyError`
and record it; the searcher leaves it in place. -/
theorem C8_error_never_cleared_witness :
    (researchTopicFinal "http://localhost:1234/v1" "google/gemma-3-1b"
      (fun _ => .response 200 (some (.obj [("object", .str "chat.completion")])) "resp")
      (fun _ => .requestException "down") "test topic").error =
      some "Error in research planning: 'choices'" :=
  C8_error_never_cleared.2 "http://localhost:1234/v1" "google/gemma-3-1b" "test topic"
    (fun _ => .response 200 (some (.obj [("object", .str "chat.completion")])) "resp")
    (fun _ => .requestException "down") "Error in research planning: 'choices'" rfl

/-- A variant's entry depends on the environment only at its own query. -/
theorem variantEntry_env_congr (s1 s2 : SearchEnv) (i : Nat) (q : String)
    (h : s1 q = s2 q) : variantEntry s1 i q = variantEntry s2 i q := by
  unfold variantEntry
  rw [h]

/-- A variant's success flag depends on the environment only at its query. -/
theorem variantSuccess_env_congr (s1 s2 : SearchEnv) (q : String)
    (h : s1 q = s2 q) : variantSuccess s1 q = variantSuccess s2 q := by
  unfold variantSuccess
  rw [h]

/-- The entry list depends only on the environment's answers to the four
issued queries. -/
theorem searchAllResults_env_congr (s1 s2 : SearchEnv) (topic : String)
    (h : ∀ q ∈ searchQueries topic, s1 q = s2 q) :
    searchAllResults s1 topic = searchAllResults s2 topic := by
  have h0 := h topic (by simp [searchQueries])
  have h1 := h (topic ++ " facts evidence 2024") (by simp [searchQueries])
  have h2 := h (topic ++ " expert analysis") (by simp [searchQueries])
  have h3 := h (topic ++ " recent research findings") (by simp [searchQueries])
  show [variantEntry s1 0 topic,
        variantEntry s1 1 (topic ++ " facts evidence 2024"),
        variantEntry s1 2 (topic ++ " expert analysis"),
        variantEntry s1 3 (topic ++ " recent research findings")] =
       [variantEntry s2 0 topic,
        variantEntry s2 1 (topic ++ " facts evidence 2024"),
        variantEntry s2 2 (topic ++ " expert analysis"),
        variantEntry s2 3 (topic ++ " recent research findings")]
  rw [variantEntry_env_congr s1 s2 0 topic h0,
    variantEntry_env_congr s1 s2 1 (topic ++ " facts evidence 2024") h1,
    variantEntry_env_congr s1 s2 2 (topic ++ " expert analysis") h2,
    variantEntry_env_congr s1 s2 3 (topic ++ " recent research findings") h3]

/-- The success counter depends only on the answers to the four queries. -/
theorem successfulSearches_env_congr (s1 s2 : SearchEnv) (topic : String)
    (h : ∀ q ∈ searchQueries topic, s1 q = s2 q) :
    successfulSearches s1 topic = successfulSearches s2 topic := by
  unfold successfulSearches
  exact congrArg List.length
    (List.filter_congr (fun q hq => variantSuccess_env_congr s1 s2 q (h q hq)))

/-- The searcher node depends only on the answers to the four queries it
issues for the state's topic. -/
theorem webSearcherNode_env_congr (s1 s2 : SearchEnv) (st : ResearchState)
    (h : ∀ q ∈ searchQueries st.topic, s1 q = s2 q) :
    webSearcherNode s1 st = webSearcherNode s2 st := by
  unfold webSearcherNode
  dsimp only
  rw [searchAllResults_env_congr s1 s2 st.topic h,
    successfulSearches_env_congr s1 s2 st.topic h]

/-- C9: the pipeline is deterministic in its external inputs: two runs on
the same topic whose mocked services answer identically (the completion
endpoint per attempt, the search provider on the four issued queries)
produce identical result records — plan, searchResults and error alike. -/
theorem C9_deterministic_in_service_responses (url model topic : String)
    (l1 l2 : LLMEnv) (s1 s2 : SearchEnv)
    (hl : ∀ i, l1 i = l2 i)
    (hs : ∀ q ∈ searchQueries topic, s1 q = s2 q) :
    researchTopic url model l1 s1 topic = researchTopic url model l2 s2 topic := by
  have hle : l1 = l2 := funext hl
  subst hle
  unfold researchTopic researchTopicFinal graphInvoke
  rw [webSearcherNode_env_congr s1 s2
    (researchPlannerNode (graphCfg url model) l1 (initialState topic))
    (by rw [plannerNode_topic]; exact hs)]

/-- C9 witness: two search environments that differ only on a query the
pipeline never issues yield identical results. -/
theorem C9_deterministic_in_service_responses_witness :
    researchTopic "http://localhost:1234/v1" "google/gemma-3-1b" (fun _ => .timeout)
      (fun q => if q = "some unissued query" then .requestException "x"
        else .response 404 none "not found") "climate"
    = researchTopic "http://localhost:1234/v1" "google/gemma-3-1b" (fun _ => .timeout)
      (fun _ => .response 404 none "not found") "climate" :=
  C9_deterministic_in_service_responses "http://localhost:1234/v1" "google/gemma-3-1b"
    "climate" (fun _ => .timeout) (fun _ => .timeout)
    (fun q => if q = "some unissued query" then .requestException "x"
      else .response 404 none "not found")
    (fun _ => .response 404 none "not found")
    (fun _ => rfl)
    (by intro q hq; simp [searchQueries] at hq
        rcases hq with rfl | rfl | rfl | rfl <;> rfl)

/-- C10 counterexample: a run in which the planning stage catches an
unexpected exception (a malformed 200 body raising `KeyError`): the error
is recorded and the messages log is shorter (2 entries), but after the
full run `next_step` is `"complete"` — set by the searching stage — not a
name of the planning stage, refuting the claim's final conjunct. -/
theorem C10_next_step_terminal_after_full_run_cex :
    (researchTopicFinal "u" "m" (fun _ => .response 200 (some (.obj [("usage", .num 42)])) "resp")
      (fun _ => .requestException "down") "t").error =
      some "Error in research planning: 'choices'" ∧
    (researchTopicFinal "u" "m" (fun _ => .response 200 (some (.obj [("usage", .num 42)])) "resp")
      (fun _ => .requestException "down") "t").messages.length = 2 ∧
    (researchTopicFinal "u" "m" (fun _ => .response 200 (some (.obj [("usage", .num 42)])) "resp")
      (fun _ => .requestException "down") "t").next_step = "complete" ∧
    ("complete" : String) ≠ "research_planner" :=
  ⟨rfl, rfl, rfl, by decide⟩

/-- C10 (amended): when the planner's `try:` body raises, the node writes
only `error` and the minimal fallback plan — `messages`, `next_step`,
`topic`, `search_results` and the unused fields are untouched at the end
of that stage (first conjunct); over the full run the messages log then
has 2 entries instead of 3, while the searching stage still sets
`next_step` to the terminal marker `"complete"` (second conjunct). -/
theorem C10_planner_catch_frame_amended :
    (∀ (cfg : LLMConfig) (env : LLMEnv) (s : ResearchState) (e : PyExc),
      plannerTryBody cfg env s = .error e →
      (researchPlannerNode cfg env s).messages = s.messages ∧
      (researchPlannerNode cfg env s).next_step = s.next_step ∧
      (researchPlannerNode cfg env s).topic = s.topic ∧
      (researchPlannerNode cfg env s).search_results = s.search_results ∧
      (researchPlannerNode cfg env s).analysis = s.analysis ∧
      (researchPlannerNode cfg env s).final_report = s.final_report ∧
      (researchPlannerNode cfg env s).error =
        some ("Error in research planning: " ++ pyExcStr e) ∧
      (researchPlannerNode cfg env s).research_plan =
        .str ("Basic research plan for: " ++ s.topic ++
          " (Error occurred in detailed planning)")) ∧
    (∀ (url model topic : String) (llmEnv : LLMEnv) (searchEnv : SearchEnv) (e : PyExc),
      plannerTryBody (graphCfg url model) llmEnv (initialState topic) = .error e →
      (researchTopicFinal url model llmEnv searchEnv topic).messages.length = 2 ∧
      (researchTopicFinal url model llmEnv searchEnv topic).next_step = "complete") := by
  constructor
  · intro cfg env s e h
    rw [plannerNode_err _ _ _ _ h]
    exact ⟨rfl, rfl, rfl, rfl, rfl, rfl, rfl, rfl⟩
  · intro url model topic llmEnv searchEnv e h
    unfold researchTopicFinal graphInvoke
    rw [plannerNode_err _ _ _ _ h]
    exact ⟨rfl, rfl⟩

/-- C10 witness: both conjuncts applied to the malformed-200 environment
whose `KeyError` the planner catches. -/
theorem C10_planner_catch_frame_amended_witness :
    ((researchPlannerNode {} (fun _ => .response 200 (some (.obj [("usage", .num 42)])) "resp")
        (initialState "t")).messages = (initialState "t").messages ∧
      (researchPlannerNode {} (fun _ => .response 200 (some (.obj [("usage", .num 42)])) "resp")
        (initialState "t")).next_step = (initialState "t").next_step ∧
      (researchPlannerNode {} (fun _ => .response 200 (some (.obj [("usage", .num 42)])) "resp")
        (initialState "t")).topic = (initialState "t").topic ∧
      (researchPlannerNode {} (fun _ => .response 200 (some (.obj [("usage", .num 42)])) "resp")
        (initialState "t")).search_results = (initialState "t").search_results ∧
      (researchPlannerNode {} (fun _ => .response 200 (some (.obj [("usage", .num 42)])) "resp")
        (initialState "t")).analysis = (initialState "t").analysis ∧
      (researchPlannerNode {} (fun _ => .response 200 (some (.obj [("usage", .num 42)])) "resp")
        (initialState "t")).final_report = (initialState "t").final_report ∧
      (researchPlannerNode {} (fun _ => .response 200 (some (.obj [("usage", .num 42)])) "resp")
        (initialState "t")).error =
        some ("Error in research planning: " ++ pyExcStr (.keyError "choices")) ∧
      (researchPlannerNode {} (fun _ => .response 200 (some (.obj [("usage", .num 42)])) "resp")
        (initialState "t")).research_plan =
        .str ("Basic research plan for: " ++ (initialState "t").topic ++
          " (Error occurred in detailed planning)")) ∧
    ((researchTopicFinal "u" "m" (fun _ => .response 200 (some (.obj [("usage", .num 42)])) "resp")
        (fun _ => .requestException "down") "t").messages.length = 2 ∧
      (researchTopicFinal "u" "m" (fun _ => .response 200 (some (.obj [("usage", .num 42)])) "resp")
        (fun _ => .requestException "down") "t").next_step = "complete") :=
  ⟨C10_planner_catch_frame_amended.1 {}
      (fun _ => .response 200 (some (.obj [("usage", .num 42)])) "resp")
      (initialState "t") (.keyError "choices") rfl,
    C10_planner_catch_frame_amended.2 "u" "m" "t"
      (fun _ => .response 200 (some (.obj [("usage", .num 42)])) "resp")
      (fun _ => .requestException "down") (.keyError "choices") rfl⟩
